import Mathlib

/-!
Shallow embedding of the unified-scraper-framework core
(src/core/compress.py, src/core/categorize.py, src/core/db.py,
src/adapters/base.py + src/adapters/init, src/main.py) together with
theorems settling the specification claims about it.

Conventions of the embedding:
* Python strings are Lean `String`; Python slicing `s[:n]` is `String.take`,
  `len` is `String.length`, substring membership `kw in s` is list-infix of
  the character data.
* The PostgreSQL store is an explicit record of row lists; `gen_random_uuid()`
  is a fresh-id counter and `NOW()` is an explicit clock field `now : Nat`.
  Each db helper is a pure state-passing function mirroring its SQL.
* Exceptions are `Except String`: a Python function that can raise is embedded
  as returning `Except`, and a raise that a caller does not handle propagates
  as the `error` branch.
* External libraries that the repository only calls (lz4.frame, base64, utf-8
  byte codecs, psycopg2 connectivity, playwright extraction) are not part of
  this repository; they enter the embedding as explicit parameters
  (`TextLibs`, the adapter function fields, the fallible item-insert), and
  their documented behaviour is assumed only as named hypotheses of theorems.
-/

/- ---------------------------------------------------------------- -/
/- src/core/compress.py                                              -/
/- ---------------------------------------------------------------- -/

/-- The external byte-level libraries used by src/core/compress.py:
utf-8 encode/decode (`str.encode`/`bytes.decode`), `lz4.frame.compress` /
`lz4.frame.decompress`, and `base64.b64encode`/`base64.b64decode`.
Bytes are modelled as `List Nat`.  These are library code, not repository
code, so they are parameters of the embedding; their documented round-trip
behaviour is taken as hypotheses where a theorem needs it. -/
structure TextLibs where
  utf8Encode : String → List Nat
  utf8Decode : List Nat → String
  lz4Compress : List Nat → List Nat
  lz4Decompress : List Nat → List Nat
  b64Encode : List Nat → String
  b64Decode : String → List Nat

/-- compress.py, compress_text: empty text short-circuits to the empty
string; otherwise base64(lz4(utf8(text))). -/
def compress_text (L : TextLibs) (text : String) : String :=
  if text = "" then ""
  else L.b64Encode (L.lz4Compress (L.utf8Encode text))

/-- compress.py, decompress_text: empty input short-circuits to the empty
string; otherwise utf8-decode(lz4-decompress(base64-decode(input))). -/
def decompress_text (L : TextLibs) (compressed : String) : String :=
  if compressed = "" then ""
  else L.utf8Decode (L.lz4Decompress (L.b64Decode compressed))

/- ---------------------------------------------------------------- -/
/- src/core/categorize.py                                            -/
/- ---------------------------------------------------------------- -/

/-- categorize.py, CATEGORY_KEYWORDS: the configured category set, in
declaration order (Python dicts preserve insertion order). -/
def CATEGORY_KEYWORDS : List (String × List String) :=
  [("documentation", ["docs", "documentation", "guide", "tutorial", "manual", "reference"]),
   ("news", ["news", "article", "update", "announcement", "press", "release"]),
   ("product", ["product", "feature", "pricing", "plan", "subscription", "service"]),
   ("support", ["help", "support", "faq", "troubleshoot", "issue", "contact"]),
   ("legal", ["terms", "privacy", "policy", "legal", "agreement", "disclaimer"]),
   ("general", [])]

/-- Scan for an occurrence of `needle` starting at each suffix of `hay`. -/
def contains_aux (needle : List Char) : List Char → Bool
  | [] => needle.isEmpty
  | c :: rest => needle.isPrefixOf (c :: rest) || contains_aux needle rest

/-- `kw in combined` of Python: substring test on character data. -/
def str_contains (hay needle : String) : Bool :=
  contains_aux needle.data hay.data

/-- Python `str.lower()`: lower-case every character (character-wise map,
matching `String.toLower` but by structural recursion over the data). -/
def str_lower (s : String) : String :=
  String.mk (s.data.map Char.toLower)

/-- Python slicing `s[:n]`: the first n characters (character-wise take,
matching `String.take` but by structural recursion over the data). -/
def str_take (s : String) (n : Nat) : String :=
  String.mk (s.data.take n)

/-- categorize.py line 68: `(title + " " + text[:2000]).lower()`. -/
def combined_search (title text : String) : String :=
  str_lower (title ++ " " ++ str_take text 2000)

/-- categorize.py line 76: the keywords of one category that occur in the
combined search string. -/
def keyword_matches (combined : String) (kws : List String) : List String :=
  kws.filter (fun kw => str_contains combined kw)

/-- One iteration of the category loop of categorize_content
(categorize.py lines 73-84), acting on the accumulator
(tags, best_category, max_matches). -/
def cat_step (combined : String) (acc : List String × String × Nat)
    (ck : String × List String) : List String × String × Nat :=
  if ck.1 = "general" then acc
  else
    let ms := keyword_matches combined ck.2
    if ms.isEmpty then acc
    else
      (acc.1 ++ ms.take 3,
       if ms.length > acc.2.2 then ck.1 else acc.2.1,
       if ms.length > acc.2.2 then ms.length else acc.2.2)

/-- categorize.py, categorize_content.  The final `list(set(tags))` has
unspecified order in Python; it is modelled as order-canonical
de-duplication. -/
def categorize_content (title text : String) : String × List String :=
  let combined := combined_search title text
  let r := CATEGORY_KEYWORDS.foldl (cat_step combined) ([], "general", 0)
  (r.2.1, r.1.eraseDups)

/-- The number of keywords of a category matching in the combined search
string built from this title and text. -/
def match_count (title text : String) (kws : List String) : Nat :=
  (keyword_matches (combined_search title text) kws).length

/- ---------------------------------------------------------------- -/
/- src/core/db.py                                                    -/
/- ---------------------------------------------------------------- -/

/-- JSON object values are modelled as association lists. -/
abbrev Json := List (String × String)

/-- A row of the Source table (db.py schema in insert_source). -/
structure SourceRow where
  id : Nat
  createdAt : Nat
  updatedAt : Nat
  name : String
  slug : String
  category : String
  metadata : Json
  sourceUrl : String
  adapter : String
  lastScraped : Nat
deriving Repr, DecidableEq

/-- A row of the Item table (db.py schema in insert_item). -/
structure ItemRow where
  id : Nat
  sourceId : Nat
  number : String
  title : String
  category : String
  summary : String
  tags : List String
  fullText : String
  sourceUrl : String
  metadata : Json
  scrapedAt : Nat
deriving Repr, DecidableEq

/-- The PostgreSQL store: both tables, a fresh-id counter modelling
`gen_random_uuid()`, and a clock modelling `NOW()`. -/
structure DB where
  sources : List SourceRow
  items : List ItemRow
  nextId : Nat
  now : Nat
deriving Repr, DecidableEq

/-- db.py, source_exists: `SELECT id FROM "Source" WHERE name = %s`,
nonempty result. -/
def source_exists (name : String) (db : DB) : Bool :=
  db.sources.any (fun r => r.name == name)

/-- db.py, get_source_id: id of the first row with this name, if any. -/
def get_source_id (name : String) (db : DB) : Option Nat :=
  (db.sources.find? (fun r => r.name == name)).map (fun r => r.id)

/-- The conflict-update of db.py insert_source: refresh only lastScraped
and updatedAt of a row with the conflicting name; every other field stays. -/
def source_refresh (name : String) (now : Nat) (s : SourceRow) : SourceRow :=
  if s.name == name then { s with lastScraped := now, updatedAt := now } else s

/-- db.py, insert_source:
`INSERT ... ON CONFLICT (name) DO UPDATE SET "lastScraped" = NOW(),
"updatedAt" = NOW() RETURNING id`.  On conflict only the two timestamp
fields of the conflicting row are refreshed and its existing id is
returned; otherwise a fresh row is appended with a fresh id. -/
def insert_source (name slug category : String) (metadata : Json)
    (source_url : String) (adapter : String) (db : DB) : Nat × DB :=
  match db.sources.find? (fun r => r.name == name) with
  | some r =>
      (r.id,
       { db with sources := db.sources.map (source_refresh name db.now) })
  | none =>
      (db.nextId,
       { db with
         sources := db.sources ++
           [{ id := db.nextId, createdAt := db.now, updatedAt := db.now,
              name := name, slug := slug, category := category,
              metadata := metadata, sourceUrl := source_url,
              adapter := adapter, lastScraped := db.now }],
         nextId := db.nextId + 1 })

/-- The natural key of an Item row: `(sourceId, number)`. -/
def item_key (sid : Nat) (number : String) (r : ItemRow) : Bool :=
  r.sourceId == sid && r.number == number

/-- The conflict-update of db.py insert_item: overwrite title, category,
summary, tags, fullText, metadata and scrapedAt of a row matching the key
(`id` and `sourceUrl` are not in the UPDATE SET list and stay). -/
def item_update (sid : Nat) (number title category summary : String)
    (full_text_compressed : String) (tags : List String) (metadata : Json)
    (now : Nat) (r : ItemRow) : ItemRow :=
  if item_key sid number r then
    { r with title := title, category := category, summary := summary,
             tags := tags, fullText := full_text_compressed,
             metadata := metadata, scrapedAt := now }
  else r

/-- db.py, insert_item: `INSERT ... ON CONFLICT ("sourceId", number) DO
UPDATE SET title, category, summary, tags, "fullText", metadata,
"scrapedAt"`.  The metadata stored is `{"adapter": adapter}` (line 94).
The unique constraint on (sourceId, number) means at most one row
conflicts; the model updates every row matching the key, which coincides
with PostgreSQL on any store satisfying the constraint. -/
def insert_item (source_id : Nat) (number title category summary : String)
    (full_text_compressed : String) (tags : List String)
    (source_url : String) (adapter : String) (db : DB) : DB :=
  let metadata : Json := [("adapter", adapter)]
  if db.items.any (item_key source_id number) then
    { db with items :=
        db.items.map (item_update source_id number title category summary
          full_text_compressed tags metadata db.now) }
  else
    { db with
      items := db.items ++
        [{ id := db.nextId, sourceId := source_id, number := number,
           title := title, category := category, summary := summary,
           tags := tags, fullText := full_text_compressed,
           sourceUrl := source_url, metadata := metadata,
           scrapedAt := db.now }],
      nextId := db.nextId + 1 }

/-- db.py, get_item_count: `SELECT COUNT(*) FROM "Item" WHERE "sourceId" = %s`. -/
def get_item_count (source_id : Nat) (db : DB) : Nat :=
  (db.items.filter (fun r => r.sourceId == source_id)).length

/- ---------------------------------------------------------------- -/
/- src/adapters/base.py, src/adapters/example.py, adapters package   -/
/- ---------------------------------------------------------------- -/

/-- A raw extracted item (the dict shape required by
BaseAdapter.extract_items): number, title, text, url. -/
structure RawItem where
  number : String
  title : String
  text : String
  url : String
deriving Repr, DecidableEq

/-- A target configuration entry (config JSON consumed by main.py
get_target_config / scrape_target). -/
structure Target where
  id : String
  name : String
  slug : String
  category : String
  metadata : Json
  url : String
  source : Option String

/-- An adapter (base.py BaseAdapter): identifying names plus the two
capability methods.  extract_items is network-bound Python that can raise,
so it is embedded as an `Except`-valued function field. -/
structure Adapter where
  SOURCE_NAME : String
  DISPLAY_NAME : String
  validate_url : String → Bool
  extract_items : String → Target → Except String (List RawItem)

/-- example.py, ExampleAdapter: `validate_url` is the concrete substring
check `"example.com" in url`; `extract_items` is playwright-driven network
extraction (an external collaborator per the embedding conventions), so the
adapter is parameterized by it. -/
def ExampleAdapter (extract : String → Target → Except String (List RawItem)) : Adapter :=
  { SOURCE_NAME := "example"
    DISPLAY_NAME := "Example.com"
    validate_url := fun url => str_contains url "example.com"
    extract_items := extract }

/-- adapters package: the ADAPTERS registry, a static mapping from source
identifier to adapter; the shipped registry holds exactly the example
adapter. -/
def ADAPTERS (extract : String → Target → Except String (List RawItem)) :
    List (String × Adapter) :=
  [("example", ExampleAdapter extract)]

/-- A single-quote character (Python repr quoting), written by code point. -/
def squote : String := String.mk [Char.ofNat 39]

/-- Python `", ".join`, used to model the list repr inside the
get_adapter error message. -/
def comma_join : List String → String
  | [] => ""
  | [x] => x
  | x :: y :: xs => x ++ ", " ++ comma_join (y :: xs)

/-- Python repr of a list of strings, as produced by
`f"{list(ADAPTERS.keys())}"`. -/
def py_list_repr (l : List String) : String :=
  "[" ++ comma_join (l.map (fun s => squote ++ s ++ squote)) ++ "]"

/-- The ValueError message of get_adapter:
`f"Unknown source: {source}. Available: {list(ADAPTERS.keys())}"`. -/
def unknown_source_message (source : String) (keys : List String) : String :=
  "Unknown source: " ++ source ++ ". Available: " ++ py_list_repr keys

/-- adapters package, get_adapter: look the identifier up in the registry;
raise ValueError with the known identifiers if absent, else return an
instance of the registered adapter. -/
def get_adapter (reg : List (String × Adapter)) (source : String) :
    Except String Adapter :=
  match reg.find? (fun p => p.1 == source) with
  | none => .error (unknown_source_message source (reg.map Prod.fst))
  | some p => .ok p.2

/- ---------------------------------------------------------------- -/
/- src/main.py, scrape_target                                        -/
/- ---------------------------------------------------------------- -/

/-- The result dict shapes returned by scrape_target, one constructor per
status string. -/
inductive ScrapeResult where
  | skipped (target : String) (items : Nat)
  | empty (target : String) (items : Nat)
  | error (target : String) (error : String)
  | success (target : String) (items : Nat) (errors : Nat) (adapter : String)
deriving Repr, DecidableEq

/-- The inline summary expression of main.py line 148:
`item['text'][:200] + "..." if len(item['text']) > 200 else item['text']`. -/
def make_summary (text : String) : String :=
  if text.length > 200 then str_take text 200 ++ "..." else text

/-- The type of the fallible item-insert call: insert_item goes through
psycopg2, so in the orchestrator it can raise; the pure table semantics
is `insert_item` above and the exception channel is the `Except` layer.
Arguments in the order of the insert_item call in main.py lines 154-164:
source_id, number, title, category, summary, compressed text, tags,
source url, adapter. -/
abbrev InsItem :=
  Nat → String → String → String → String → String → List String →
    String → String → DB → Except String DB

/-- One iteration of the per-item loop of scrape_target (main.py lines
142-171): classify, summarize, compress, insert; a raise from the insert is
caught and counted, anything else increments the success counter.  The
accumulator is (success_count, error_count, db). -/
def item_step (ins : InsItem) (L : TextLibs) (source_id : Nat)
    (adapter_name : String) (acc : Nat × Nat × DB) (item : RawItem) :
    Nat × Nat × DB :=
  let cr := categorize_content item.title item.text
  let summary := make_summary item.text
  let compressed := compress_text L item.text
  match ins source_id item.number item.title cr.1 summary compressed cr.2
      item.url adapter_name acc.2.2 with
  | .ok db2 => (acc.1 + 1, acc.2.1, db2)
  | .error _ => (acc.1, acc.2.1 + 1, acc.2.2)

/-- main.py, scrape_target, taking the resolved target config (the claims
quantify over it; config-file loading is out of scope).  The parameters
model the imported dependencies: the adapter registry, the byte-level
libraries, and the fallible psycopg2-backed item insert.  The outer
`Except` is the exception channel past scrape_target: an uncaught raise
(fatal extraction failure) lands in `.error`, every handled path in `.ok`.
The returned DB is the external store, which keeps the effects already
committed even when an exception propagates. -/
def scrape_target (reg : List (String × Adapter)) (L : TextLibs)
    (ins : InsItem) (target : Target) (force : Bool) (db : DB) :
    Except String ScrapeResult × DB :=
  let target_name := target.name
  let adapter_name := target.source.getD "example"
  -- main.py lines 99-103: skip-check
  if !force && source_exists target_name db then
    let existing_count :=
      match get_source_id target_name db with
      | some i => get_item_count i db
      | none => 0
    (.ok (.skipped target_name existing_count), db)
  else
    -- main.py lines 106-111: adapter resolution, ValueError handled
    match get_adapter reg adapter_name with
    | .error e => (.ok (.error target_name e), db)
    | .ok adapter =>
      -- main.py lines 114-116: URL validation
      if !(adapter.validate_url target.url) then
        (.ok (.error target_name "URL validation failed"), db)
      else
        -- main.py line 119: extraction, NOT wrapped in try/except:
        -- a raise propagates out of scrape_target
        match adapter.extract_items target.url target with
        | .error e => (.error e, db)
        | .ok items =>
          -- main.py lines 121-123: empty result
          if items.isEmpty then (.ok (.empty target_name 0), db)
          else
            -- main.py lines 128-135: source upsert
            let sr := insert_source target_name target.slug target.category
              target.metadata target.url adapter_name db
            -- main.py lines 139-171: per-item loop
            let r := items.foldl (item_step ins L sr.1 adapter_name) (0, 0, sr.2)
            (.ok (.success target_name r.1 r.2.1 adapter_name), r.2.2)

/- ---------------------------------------------------------------- -/
/- Shared helper lemmas                                              -/
/- ---------------------------------------------------------------- -/

set_option maxRecDepth 40000

/-- find? on an append where nothing on the left matches. -/
theorem find?_append_of_none {α} (p : α → Bool) (l m : List α)
    (h : l.find? p = none) : (l ++ m).find? p = m.find? p := by
  induction l with
  | nil => rfl
  | cons a tl ih =>
    cases hp : p a with
    | true => simp [List.find?_cons, hp] at h
    | false =>
      simp only [List.cons_append, List.find?_cons, hp] at h ⊢
      exact ih h

/-- Splitting the length of a list by a Bool predicate. -/
theorem length_filter_split {α} (p : α → Bool) (l : List α) :
    (l.filter p).length + (l.filter (fun x => !p x)).length = l.length :=
  (List.length_eq_length_filter_add p).symm

/- ---------------------------------------------------------------- -/
/- C1: text codec round-trip                                         -/
/- ---------------------------------------------------------------- -/

/-- C1: for every text x, decompress_text (compress_text x) = x, and on the
empty string both directions are the identity.  The hypotheses state the
documented behaviour of the external utf-8 / lz4 / base64 libraries at the
values this input reaches: each decode inverts its encode, and the encoded
form of a nonempty text is a nonempty string (an lz4 frame always carries a
header, and base64 of nonempty bytes is nonempty). -/
theorem C1_codec_roundtrip (L : TextLibs) (x : String)
    (hutf8 : L.utf8Decode (L.utf8Encode x) = x)
    (hlz4 : L.lz4Decompress (L.lz4Compress (L.utf8Encode x)) = L.utf8Encode x)
    (hb64 : L.b64Decode (L.b64Encode (L.lz4Compress (L.utf8Encode x)))
              = L.lz4Compress (L.utf8Encode x))
    (hne : x ≠ "" → L.b64Encode (L.lz4Compress (L.utf8Encode x)) ≠ "") :
    decompress_text L (compress_text L x) = x
    ∧ compress_text L "" = "" ∧ decompress_text L "" = "" := by
  refine ⟨?_, by simp [compress_text], by simp [decompress_text]⟩
  by_cases hx : x = ""
  · subst hx; simp [compress_text, decompress_text]
  · rw [compress_text, if_neg hx, decompress_text, if_neg (hne hx), hb64, hlz4, hutf8]

/-- A concrete stand-in for the external byte libraries, used by witnesses:
an injective byte view of the string, a header-prepending compressor, and a
byte-per-character textual encoding. -/
def L0 : TextLibs :=
  { utf8Encode := fun s => s.data.map Char.toNat
    utf8Decode := fun l => String.mk (l.map Char.ofNat)
    lz4Compress := fun b => 0 :: b
    lz4Decompress := fun b => b.drop 1
    b64Encode := fun b => String.mk (b.map Char.ofNat)
    b64Decode := fun s => s.data.map Char.toNat }

theorem C1_codec_roundtrip_witness :
    decompress_text L0 (compress_text L0 "ab") = "ab"
    ∧ compress_text L0 "" = "" ∧ decompress_text L0 "" = "" :=
  C1_codec_roundtrip L0 "ab" (by decide) (by decide) (by decide) (fun _ => by decide)

/- ---------------------------------------------------------------- -/
/- C8: summary truncation                                            -/
/- ---------------------------------------------------------------- -/

/-- C8: the generated summary is the first 200 characters plus the "..."
truncation marker when the text is longer than 200 characters, and the
text verbatim otherwise (in particular at length exactly 200). -/
theorem C8_summary_truncation (t : String) :
    (t.length > 200 → make_summary t = str_take t 200 ++ "...")
    ∧ (t.length ≤ 200 → make_summary t = t) := by
  constructor
  · intro h
    rw [make_summary, if_pos h]
  · intro h
    rw [make_summary, if_neg (by omega)]

/-- A text of exactly 250 characters. -/
def text250 : String := String.mk (List.replicate 250 'a')

/-- A text of exactly 150 characters. -/
def text150 : String := String.mk (List.replicate 150 'b')

/-- A text of exactly 200 characters. -/
def text200 : String := String.mk (List.replicate 200 'c')

theorem C8_summary_truncation_witness :
    make_summary text250 = str_take text250 200 ++ "..."
    ∧ make_summary text150 = text150
    ∧ make_summary text200 = text200 :=
  ⟨(C8_summary_truncation text250).1 (by decide),
   (C8_summary_truncation text150).2 (by decide),
   (C8_summary_truncation text200).2 (by decide)⟩

/- ---------------------------------------------------------------- -/
/- Orchestrator-path claims: C2, C7, C10                             -/
/- ---------------------------------------------------------------- -/

/-- The skip-check guard is false when forced or when the source is new. -/
theorem skip_guard_false (target : Target) (force : Bool) (db : DB)
    (hskip : force = true ∨ source_exists target.name db = false) :
    (!force && source_exists target.name db) = false := by
  rcases hskip with h | h <;> simp [h]

/-- C2 (amended): a fatal extraction exception is NOT captured into a
result object; main.py line 119 is outside any try/except, so the raise
propagates out of scrape_target (it is only handled by the CLI `main`).
Nothing has been persisted at that point: the store comes back unchanged. -/
theorem C2_extraction_exception_propagates (reg : List (String × Adapter))
    (L : TextLibs) (ins : InsItem) (target : Target) (force : Bool) (db : DB)
    (a : Adapter) (e : String)
    (hskip : force = true ∨ source_exists target.name db = false)
    (hres : get_adapter reg (target.source.getD "example") = .ok a)
    (hurl : a.validate_url target.url = true)
    (hext : a.extract_items target.url target = .error e) :
    scrape_target reg L ins target force db = (.error e, db) := by
  have hg := skip_guard_false target force db hskip
  simp only [scrape_target, hg, hres, hurl, hext]
  simp

/-- An adapter whose extraction always raises a fatal error. -/
def failing_adapter : Adapter :=
  { SOURCE_NAME := "failing"
    DISPLAY_NAME := "Failing"
    validate_url := fun _ => true
    extract_items := fun _ _ => .error "boom" }

/-- A registry holding only the failing adapter. -/
def c2_reg : List (String × Adapter) := [("failing", failing_adapter)]

/-- A target routed to the failing adapter. -/
def c2_target : Target :=
  { id := "t-f", name := "Target F", slug := "target-f", category := "cat",
    metadata := [], url := "http://x", source := some "failing" }

/-- The empty store. -/
def db0 : DB := { sources := [], items := [], nextId := 1, now := 0 }

/-- The fallible item-insert whose underlying store call always succeeds. -/
def ins0 : InsItem := fun sid num t c s ft tg u a db =>
  .ok (insert_item sid num t c s ft tg u a db)

theorem C2_counterexample :
    (scrape_target c2_reg L0 ins0 c2_target true db0).1 = Except.error "boom"
    ∧ ¬ ∃ r : ScrapeResult,
        (scrape_target c2_reg L0 ins0 c2_target true db0).1 = Except.ok r := by
  have h : (scrape_target c2_reg L0 ins0 c2_target true db0).1
      = Except.error "boom" := rfl
  refine ⟨h, ?_⟩
  rintro ⟨r, hr⟩
  rw [h] at hr
  exact Except.noConfusion hr

theorem C2_extraction_exception_propagates_witness :
    scrape_target c2_reg L0 ins0 c2_target true db0 = (.error "boom", db0) :=
  C2_extraction_exception_propagates c2_reg L0 ins0 c2_target true db0
    failing_adapter "boom" (Or.inl rfl) rfl rfl rfl

/-- C7: when not forced and the Source name already exists, scrape_target
returns status skipped with the existing item count, leaves the store
untouched, and its outcome does not depend on the adapter registry, the
byte libraries, or the item-insert effect — no adapter is resolved or
invoked and no persistence write happens. -/
theorem C7_skip_existing (reg reg2 : List (String × Adapter))
    (L L2 : TextLibs) (ins ins2 : InsItem) (target : Target) (db : DB)
    (hexists : source_exists target.name db = true) :
    scrape_target reg L ins target false db
      = (.ok (.skipped target.name
          (match get_source_id target.name db with
           | some i => get_item_count i db
           | none => 0)), db)
    ∧ scrape_target reg L ins target false db
        = scrape_target reg2 L2 ins2 target false db := by
  have h : ∀ (r : List (String × Adapter)) (l : TextLibs) (i : InsItem),
      scrape_target r l i target false db
        = (.ok (.skipped target.name
            (match get_source_id target.name db with
             | some j => get_item_count j db
             | none => 0)), db) := by
    intro r l i
    simp only [scrape_target, hexists, Bool.not_false, Bool.true_and, if_true]
  exact ⟨h reg L ins, (h reg L ins).trans (h reg2 L2 ins2).symm⟩

/-- An existing Source row for the skip witness. -/
def c7_source : SourceRow :=
  { id := 1, createdAt := 0, updatedAt := 0, name := "Target A", slug := "target-a",
    category := "cat", metadata := [], sourceUrl := "http://example.com/a",
    adapter := "example", lastScraped := 0 }

/-- One stored item row belonging to source 1. -/
def c7_item (n : Nat) : ItemRow :=
  { id := 10 + n, sourceId := 1, number := toString n, title := "t",
    category := "general", summary := "s", tags := [], fullText := "f",
    sourceUrl := "u", metadata := [], scrapedAt := 0 }

/-- A store holding "Target A" with 5 items. -/
def c7_db : DB :=
  { sources := [c7_source],
    items := [c7_item 1, c7_item 2, c7_item 3, c7_item 4, c7_item 5],
    nextId := 2, now := 3 }

/-- The target whose name collides with the stored source. -/
def c7_target : Target :=
  { id := "t-a", name := "Target A", slug := "target-a", category := "cat",
    metadata := [], url := "http://example.com/a", source := none }

theorem C7_skip_existing_witness :
    scrape_target c2_reg L0 ins0 c7_target false c7_db
      = (.ok (.skipped "Target A" 5), c7_db) := by
  have h := (C7_skip_existing c2_reg c2_reg L0 L0 ins0 ins0 c7_target c7_db rfl).1
  exact h.trans rfl

/-- C10: when the adapter returns an empty item list, scrape_target
returns status empty with items 0 and the store is returned unchanged —
neither insert_source nor insert_item has run, so no Source row and no
Item row is created or refreshed on the empty path. -/
theorem C10_empty_no_persistence (reg : List (String × Adapter))
    (L : TextLibs) (ins : InsItem) (target : Target) (force : Bool) (db : DB)
    (a : Adapter)
    (hskip : force = true ∨ source_exists target.name db = false)
    (hres : get_adapter reg (target.source.getD "example") = .ok a)
    (hurl : a.validate_url target.url = true)
    (hext : a.extract_items target.url target = .ok []) :
    scrape_target reg L ins target force db
      = (.ok (.empty target.name 0), db) := by
  have hg := skip_guard_false target force db hskip
  simp only [scrape_target, hg, hres, hurl, hext]
  simp

/-- An adapter whose extraction finds nothing. -/
def empty_adapter : Adapter :=
  { SOURCE_NAME := "emptysrc"
    DISPLAY_NAME := "Empty"
    validate_url := fun _ => true
    extract_items := fun _ _ => .ok [] }

/-- A registry holding only the empty adapter. -/
def c10_reg : List (String × Adapter) := [("emptysrc", empty_adapter)]

/-- A target routed to the empty adapter. -/
def c10_target : Target :=
  { id := "t-e", name := "Target E", slug := "target-e", category := "cat",
    metadata := [], url := "http://y", source := some "emptysrc" }

theorem C10_empty_no_persistence_witness :
    scrape_target c10_reg L0 ins0 c10_target true db0
      = (.ok (.empty "Target E" 0), db0) :=
  C10_empty_no_persistence c10_reg L0 ins0 c10_target true db0
    empty_adapter (Or.inl rfl) rfl rfl rfl

/- ---------------------------------------------------------------- -/
/- C3: Item upsert overwrites, row count stays 1                     -/
/- ---------------------------------------------------------------- -/

/-- The conflict-update preserves the natural key of every row. -/
theorem item_update_key (sid : Nat) (num t c s ft : String)
    (tg : List String) (md : Json) (now : Nat) (r : ItemRow) :
    item_key sid num (item_update sid num t c s ft tg md now r)
      = item_key sid num r := by
  unfold item_update
  split <;> rfl

/-- Mapping the conflict-update over the table does not change how many
rows match the key. -/
theorem filter_key_map_update (sid : Nat) (num t c s ft : String)
    (tg : List String) (md : Json) (now : Nat) (l : List ItemRow) :
    ((l.map (item_update sid num t c s ft tg md now)).filter
        (item_key sid num)).length
      = (l.filter (item_key sid num)).length := by
  induction l with
  | nil => rfl
  | cons a tl ih =>
    rw [List.map_cons, List.filter_cons, List.filter_cons, item_update_key]
    cases h : item_key sid num a <;> simp [h, ih]

/-- insert_item never touches the clock. -/
theorem insert_item_now (sid : Nat) (num t c s ft : String)
    (tg : List String) (u a : String) (db : DB) :
    (insert_item sid num t c s ft tg u a db).now = db.now := by
  unfold insert_item
  split <;> rfl

/-- A positive filter count yields a positive any. -/
theorem any_of_count_pos {α} (l : List α) (p : α → Bool)
    (h : 0 < (l.filter p).length) : l.any p = true := by
  rw [List.any_eq_true]
  obtain ⟨x, hx⟩ := List.exists_mem_of_length_pos h
  exact ⟨x, (List.mem_filter.mp hx).1, (List.mem_filter.mp hx).2⟩

/-- On a store with at most one row for the key (the unique-constraint
invariant), insert_item leaves exactly one row for the key. -/
theorem insert_item_key_count (sid : Nat) (num t c s ft : String)
    (tg : List String) (u a : String) (db : DB)
    (hkey : (db.items.filter (item_key sid num)).length ≤ 1) :
    ((insert_item sid num t c s ft tg u a db).items.filter
        (item_key sid num)).length = 1 := by
  unfold insert_item
  cases h : db.items.any (item_key sid num) with
  | false =>
    have hnil : db.items.filter (item_key sid num) = [] := by
      rw [List.filter_eq_nil_iff]
      rw [List.any_eq_false] at h
      exact h
    simp [h, List.filter_append, hnil, item_key]
  | true =>
    have hpos : 0 < (db.items.filter (item_key sid num)).length := by
      rw [List.any_eq_true] at h
      obtain ⟨x, hx, hpx⟩ := h
      exact List.length_pos.mpr
        (List.ne_nil_of_mem (List.mem_filter.mpr ⟨hx, hpx⟩))
    simp only [h, if_true]
    rw [filter_key_map_update]
    omega

/-- After an insert that hit the conflict branch, every row matching the
key carries the freshly supplied mutable fields. -/
theorem insert_item_fields (sid : Nat) (num t c s ft : String)
    (tg : List String) (u a : String) (db : DB)
    (hany : db.items.any (item_key sid num) = true) :
    ∀ r ∈ (insert_item sid num t c s ft tg u a db).items,
      item_key sid num r = true →
        r.title = t ∧ r.category = c ∧ r.summary = s ∧ r.tags = tg
        ∧ r.fullText = ft ∧ r.metadata = [("adapter", a)]
        ∧ r.scrapedAt = db.now := by
  intro r hr hkr
  unfold insert_item at hr
  rw [if_pos hany] at hr
  obtain ⟨r0, hr0, rfl⟩ := List.mem_map.mp hr
  by_cases h0 : item_key sid num r0 = true
  · simp [item_update, h0]
  · rw [item_update_key] at hkr
    exact absurd hkr h0

/-- C3: re-inserting an item with the same (sourceId, number) key but
changed fields replaces title, category, summary, tags, fullText,
metadata and scrapedAt of the stored row, and the number of Item rows for
that key remains exactly 1 — upsert, not append.  `hkey` is the store's
unique-constraint invariant on the key before the first insert. -/
theorem C3_item_upsert (db0 : DB) (sid : Nat) (num : String)
    (t1 c1 s1 ft1 : String) (tg1 : List String) (u1 a1 : String)
    (t2 c2 s2 ft2 : String) (tg2 : List String) (u2 a2 : String)
    (db1 db2 : DB)
    (hkey : (db0.items.filter (item_key sid num)).length ≤ 1)
    (hchanged : t2 ≠ t1)
    (h1 : insert_item sid num t1 c1 s1 ft1 tg1 u1 a1 db0 = db1)
    (h2 : insert_item sid num t2 c2 s2 ft2 tg2 u2 a2 db1 = db2) :
    (db2.items.filter (item_key sid num)).length = 1
    ∧ ∀ r ∈ db2.items, item_key sid num r = true →
        r.title = t2 ∧ r.category = c2 ∧ r.summary = s2 ∧ r.tags = tg2
        ∧ r.fullText = ft2 ∧ r.metadata = [("adapter", a2)]
        ∧ r.scrapedAt = db1.now := by
  subst h1
  subst h2
  have hc1 : ((insert_item sid num t1 c1 s1 ft1 tg1 u1 a1 db0).items.filter
      (item_key sid num)).length = 1 :=
    insert_item_key_count sid num t1 c1 s1 ft1 tg1 u1 a1 db0 hkey
  have hany1 : (insert_item sid num t1 c1 s1 ft1 tg1 u1 a1 db0).items.any
      (item_key sid num) = true :=
    any_of_count_pos _ _ (by omega)
  exact ⟨insert_item_key_count sid num t2 c2 s2 ft2 tg2 u2 a2 _ (by omega),
         insert_item_fields sid num t2 c2 s2 ft2 tg2 u2 a2 _ hany1⟩

/-- The store after first inserting item ("N-1", "Old title"). -/
def c3_db1 : DB :=
  insert_item 1 "N-1" "Old title" "general" "sum" "ft" [] "u" "example" db0

/-- The store after re-inserting the same key with changed fields. -/
def c3_db2 : DB :=
  insert_item 1 "N-1" "New title" "news" "sum2" "ft2" ["x"] "u2" "ex2" c3_db1

theorem C3_item_upsert_witness :
    (c3_db2.items.filter (item_key 1 "N-1")).length = 1
    ∧ ∀ r ∈ c3_db2.items, item_key 1 "N-1" r = true →
        r.title = "New title" ∧ r.category = "news" ∧ r.summary = "sum2"
        ∧ r.tags = ["x"] ∧ r.fullText = "ft2"
        ∧ r.metadata = [("adapter", "ex2")] ∧ r.scrapedAt = c3_db1.now :=
  C3_item_upsert db0 1 "N-1" "Old title" "general" "sum" "ft" [] "u" "example"
    "New title" "news" "sum2" "ft2" ["x"] "u2" "ex2" c3_db1 c3_db2
    (by decide) (by decide) rfl rfl

/- ---------------------------------------------------------------- -/
/- C4: Source upsert keeps id and first-creation fields              -/
/- ---------------------------------------------------------------- -/

/-- The Source conflict-update preserves the row name. -/
theorem source_refresh_name (name : String) (now : Nat) (s : SourceRow) :
    (source_refresh name now s).name = s.name := by
  unfold source_refresh
  split <;> rfl

/-- Refreshing a table none of whose rows carry the name leaves no row
carrying the name. -/
theorem filter_name_map_refresh (name : String) (now : Nat)
    (l : List SourceRow) (h : ∀ r ∈ l, (r.name == name) = false) :
    (l.map (source_refresh name now)).filter (fun r => r.name == name) = [] := by
  induction l with
  | nil => rfl
  | cons a tl ih =>
    have ha : ((source_refresh name now a).name == name) = false := by
      rw [source_refresh_name]
      exact h a (List.mem_cons_self a tl)
    rw [List.map_cons, List.filter_cons, ha]
    simp only [Bool.false_eq_true, if_false]
    exact ih (fun r hr => h r (List.mem_cons_of_mem a hr))

/-- C4: when a Source with the name already exists, insert_source returns
the id of the first creation, leaves exactly one Source row with that
name, and changes only lastScraped and updatedAt of it — slug, category,
metadata, sourceUrl, adapter and createdAt stay as set at first creation.
The scenario: a first creation into a store without the name, then a
re-run (with possibly different arguments) at a later clock t2. -/
theorem C4_source_upsert (db0 : DB) (n s c : String) (m : Json) (u a : String)
    (s2 c2 : String) (m2 : Json) (u2 a2 : String) (t2 : Nat)
    (id1 id2 : Nat) (db1 db2 : DB)
    (hfresh : source_exists n db0 = false)
    (h1 : insert_source n s c m u a db0 = (id1, db1))
    (h2 : insert_source n s2 c2 m2 u2 a2 { db1 with now := t2 } = (id2, db2)) :
    id2 = id1
    ∧ (db2.sources.filter (fun r => r.name == n)).length = 1
    ∧ ∀ r ∈ db2.sources, r.name = n →
        r.id = id1 ∧ r.slug = s ∧ r.category = c ∧ r.metadata = m
        ∧ r.sourceUrl = u ∧ r.adapter = a ∧ r.createdAt = db0.now
        ∧ r.lastScraped = t2 ∧ r.updatedAt = t2 := by
  have hnomatch : ∀ r ∈ db0.sources, (r.name == n) = false := by
    unfold source_exists at hfresh
    rw [List.any_eq_false] at hfresh
    intro r hr
    exact Bool.not_eq_true _ ▸ Bool.eq_false_iff.mpr (hfresh r hr)
  have hnone : db0.sources.find? (fun r => r.name == n) = none := by
    rw [List.find?_eq_none]
    intro r hr
    simp [hnomatch r hr]
  rw [insert_source, hnone] at h1
  injection h1 with hid1 hdb1
  subst hid1
  subst hdb1
  rw [insert_source] at h2
  simp only at h2
  rw [find?_append_of_none _ _ _ hnone] at h2
  simp only [List.find?_cons, beq_self_eq_true] at h2
  injection h2 with hid2 hdb2
  subst hid2
  subst hdb2
  refine ⟨rfl, ?_, ?_⟩
  · rw [List.map_append, List.filter_append,
        filter_name_map_refresh n t2 db0.sources hnomatch]
    simp [source_refresh]
  · intro r hr hname
    rw [List.map_append] at hr
    rcases List.mem_append.mp hr with hl | hl
    · obtain ⟨r0, hr0, rfl⟩ := List.mem_map.mp hl
      rw [source_refresh_name] at hname
      have := hnomatch r0 hr0
      rw [hname] at this
      simp at this
    · simp only [List.map_cons, List.map_nil, List.mem_singleton] at hl
      subst hl
      simp [source_refresh]

/-- The store after first creating Source "Src A". -/
def c4_db1 : DB :=
  (insert_source "Src A" "src-a" "cat" [("k", "v")] "http://a" "example" db0).2

/-- The store after re-running insert_source for "Src A" with different
arguments at clock 9. -/
def c4_db2 : DB :=
  (insert_source "Src A" "other" "cat2" [] "http://b" "ex2"
    { c4_db1 with now := 9 }).2

theorem C4_source_upsert_witness :
    (insert_source "Src A" "other" "cat2" [] "http://b" "ex2"
        { c4_db1 with now := 9 }).1
      = (insert_source "Src A" "src-a" "cat" [("k", "v")] "http://a" "example" db0).1
    ∧ (c4_db2.sources.filter (fun r => r.name == "Src A")).length = 1
    ∧ ∀ r ∈ c4_db2.sources, r.name = "Src A" →
        r.id = (insert_source "Src A" "src-a" "cat" [("k", "v")] "http://a" "example" db0).1
        ∧ r.slug = "src-a" ∧ r.category = "cat" ∧ r.metadata = [("k", "v")]
        ∧ r.sourceUrl = "http://a" ∧ r.adapter = "example" ∧ r.createdAt = db0.now
        ∧ r.lastScraped = 9 ∧ r.updatedAt = 9 :=
  C4_source_upsert db0 "Src A" "src-a" "cat" [("k", "v")] "http://a" "example"
    "other" "cat2" [] "http://b" "ex2" 9 _ _ c4_db1 c4_db2
    (by decide) rfl rfl

/- ---------------------------------------------------------------- -/
/- C5: classifier tie-break — first declared category wins           -/
/- ---------------------------------------------------------------- -/

/-- When no remaining category can strictly beat the running maximum, the
fold leaves best_category and max_matches unchanged (only tags grow). -/
theorem cat_fold_no_improve (combined : String) :
    ∀ (cats : List (String × List String)) (acc : List String × String × Nat),
      (∀ ck ∈ cats, ck.1 = "general"
        ∨ (keyword_matches combined ck.2).length ≤ acc.2.2) →
      (cats.foldl (cat_step combined) acc).2 = acc.2 := by
  intro cats
  induction cats with
  | nil => intro acc _; rfl
  | cons a tl ih =>
    intro acc h
    have ha := h a (List.mem_cons_self a tl)
    have hstep : (cat_step combined acc a).2 = acc.2 := by
      unfold cat_step
      rcases ha with hg | hle
      · rw [if_pos hg]
      · by_cases hg : a.1 = "general"
        · rw [if_pos hg]
        · rw [if_neg hg]
          simp only
          by_cases he : (keyword_matches combined a.2).isEmpty
          · rw [if_pos he]
          · rw [if_neg he]
            have hnotgt : ¬((keyword_matches combined a.2).length > acc.2.2) := by
              omega
            simp only [if_neg hnotgt]
    rw [List.foldl_cons]
    have htl : ∀ ck ∈ tl, ck.1 = "general"
        ∨ (keyword_matches combined ck.2).length ≤ (cat_step combined acc a).2.2 := by
      intro ck hck
      rw [hstep]
      exact h ck (List.mem_cons_of_mem a hck)
    rw [ih (cat_step combined acc a) htl, hstep]

/-- The strict-greater tracking of categorize_content: the first category
whose match count strictly beats the running maximum and is at least every
later category's count ends up as best_category. -/
theorem cat_fold_first_max (combined : String) :
    ∀ (pre : List (String × List String)) (a : String × List String)
      (post : List (String × List String)) (acc : List String × String × Nat),
      a.1 ≠ "general" →
      (keyword_matches combined a.2).length > acc.2.2 →
      (∀ p ∈ pre, p.1 = "general"
        ∨ (keyword_matches combined p.2).length < (keyword_matches combined a.2).length) →
      (∀ p ∈ post, p.1 = "general"
        ∨ (keyword_matches combined p.2).length ≤ (keyword_matches combined a.2).length) →
      ((pre ++ (a :: post)).foldl (cat_step combined) acc).2.1 = a.1 := by
  intro pre
  induction pre with
  | nil =>
    intro a post acc ha hgt hpre hpost
    rw [List.nil_append, List.foldl_cons]
    have hne : (keyword_matches combined a.2).isEmpty = false := by
      cases hkm : keyword_matches combined a.2 with
      | nil => rw [hkm] at hgt; simp at hgt
      | cons x xs => rfl
    have hstep : (cat_step combined acc a).2 = (a.1, (keyword_matches combined a.2).length) := by
      unfold cat_step
      rw [if_neg ha]
      simp only
      rw [if_neg (by rw [hne]; exact Bool.false_ne_true)]
      simp only [if_pos hgt]
    have hrest := cat_fold_no_improve combined post (cat_step combined acc a)
      (by
        intro p hp
        rw [hstep]
        exact hpost p hp)
    rw [hrest, hstep]
  | cons q pre' ih =>
    intro a post acc ha hgt hpre hpost
    rw [List.cons_append, List.foldl_cons]
    have hq := hpre q (List.mem_cons_self q pre')
    have hgt' : (keyword_matches combined a.2).length > (cat_step combined acc q).2.2 := by
      unfold cat_step
      rcases hq with hg | hlt
      · rw [if_pos hg]; exact hgt
      · by_cases hg : q.1 = "general"
        · rw [if_pos hg]; exact hgt
        · rw [if_neg hg]
          simp only
          by_cases he : (keyword_matches combined q.2).isEmpty
          · rw [if_pos he]; exact hgt
          · rw [if_neg he]
            by_cases h2 : (keyword_matches combined q.2).length > acc.2.2
            · simp only [if_pos h2]; exact hlt
            · simp only [if_neg h2]; exact hgt
    exact ih a post (cat_step combined acc q) ha hgt'
      (fun p hp => hpre p (List.mem_cons_of_mem q hp)) hpost

/-- C5: if two non-default categories each match an equal, nonzero number
m of keywords and every other configured category matches fewer, then
categorize_content returns the one declared earlier in CATEGORY_KEYWORDS
— the winner is tracked by strictly-greater match count, so a later
category with an equal count never overrides the first-seen one. -/
theorem C5_tiebreak_first_declared (title text : String)
    (ca cb : String) (kwa kwb : List String) (m : Nat)
    (pre mid post : List (String × List String))
    (hdecomp : CATEGORY_KEYWORDS = pre ++ ((ca, kwa) :: (mid ++ ((cb, kwb) :: post))))
    (hca : ca ≠ "general") (hcb : cb ≠ "general")
    (hma : match_count title text kwa = m)
    (hmb : match_count title text kwb = m)
    (hm : m ≠ 0)
    (hpre : ∀ p ∈ pre, p.1 ≠ "general" → match_count title text p.2 < m)
    (hmid : ∀ p ∈ mid, p.1 ≠ "general" → match_count title text p.2 < m)
    (hpost : ∀ p ∈ post, p.1 ≠ "general" → match_count title text p.2 < m) :
    (categorize_content title text).1 = ca := by
  unfold categorize_content
  rw [hdecomp]
  simp only
  have hcount : (keyword_matches (combined_search title text) kwa).length = m := hma
  refine cat_fold_first_max (combined_search title text) pre (ca, kwa)
    (mid ++ ((cb, kwb) :: post)) ([], "general", 0) hca ?_ ?_ ?_
  · show (keyword_matches (combined_search title text) kwa).length > 0
    rw [hcount]
    omega
  · intro p hp
    by_cases hg : p.1 = "general"
    · exact Or.inl hg
    · exact Or.inr (by rw [hcount]; exact hpre p hp hg)
  · intro p hp
    rcases List.mem_append.mp hp with hl | hl
    · by_cases hg : p.1 = "general"
      · exact Or.inl hg
      · exact Or.inr (by rw [hcount]; exact Nat.le_of_lt (hmid p hl hg))
    · rcases List.mem_cons.mp hl with rfl | hl2
      · exact Or.inr (by rw [hcount]; exact Nat.le_of_eq hmb)
      · by_cases hg : p.1 = "general"
        · exact Or.inl hg
        · exact Or.inr (by rw [hcount]; exact Nat.le_of_lt (hpost p hl2 hg))

theorem C5_tiebreak_first_declared_witness :
    (categorize_content "docs guide news article" "").1 = "documentation" :=
  C5_tiebreak_first_declared "docs guide news article" ""
    "documentation" "news"
    ["docs", "documentation", "guide", "tutorial", "manual", "reference"]
    ["news", "article", "update", "announcement", "press", "release"]
    2 [] []
    [("product", ["product", "feature", "pricing", "plan", "subscription", "service"]),
     ("support", ["help", "support", "faq", "troubleshoot", "issue", "contact"]),
     ("legal", ["terms", "privacy", "policy", "legal", "agreement", "disclaimer"]),
     ("general", [])]
    (by decide) (by decide) (by decide) (by decide) (by decide) (by decide)
    (by decide) (by decide) (by decide)

/- ---------------------------------------------------------------- -/
/- C6: per-item failures are counted, never abort the target         -/
/- ---------------------------------------------------------------- -/

/-- Counting through the per-item loop: when an item's insert outcome is
determined by its number (`bad`), the loop adds one success per good item
and one error per bad item, independent of the store state. -/
theorem item_loop_counts (ins : InsItem) (L : TextLibs) (sid : Nat)
    (aname : String) (bad : String → Bool)
    (hins : ∀ (num t c s ft : String) (tg : List String) (u : String) (db : DB),
      (bad num = true → ∃ msg, ins sid num t c s ft tg u aname db = .error msg)
      ∧ (bad num = false → ∃ db2, ins sid num t c s ft tg u aname db = .ok db2)) :
    ∀ (items : List RawItem) (acc : Nat × Nat × DB),
      (items.foldl (item_step ins L sid aname) acc).1
          = acc.1 + (items.filter (fun it => !(bad it.number))).length
      ∧ (items.foldl (item_step ins L sid aname) acc).2.1
          = acc.2.1 + (items.filter (fun it => bad it.number)).length := by
  intro items
  induction items with
  | nil => intro acc; simp
  | cons it tl ih =>
    intro acc
    rw [List.foldl_cons, List.filter_cons, List.filter_cons]
    cases hb : bad it.number with
    | false =>
      obtain ⟨db2, hok⟩ := (hins it.number it.title
        (categorize_content it.title it.text).1 (make_summary it.text)
        (compress_text L it.text) (categorize_content it.title it.text).2
        it.url acc.2.2).2 hb
      have hstep : item_step ins L sid aname acc it = (acc.1 + 1, acc.2.1, db2) := by
        simp only [item_step]
        rw [hok]
      rw [hstep]
      have := ih (acc.1 + 1, acc.2.1, db2)
      refine ⟨?_, ?_⟩
      · rw [this.1]; simp [hb]; omega
      · rw [this.2]; simp [hb]
    | true =>
      obtain ⟨msg, herr⟩ := (hins it.number it.title
        (categorize_content it.title it.text).1 (make_summary it.text)
        (compress_text L it.text) (categorize_content it.title it.text).2
        it.url acc.2.2).1 hb
      have hstep : item_step ins L sid aname acc it = (acc.1, acc.2.1 + 1, acc.2.2) := by
        simp only [item_step]
        rw [herr]
      rw [hstep]
      have := ih (acc.1, acc.2.1 + 1, acc.2.2)
      refine ⟨?_, ?_⟩
      · rw [this.1]; simp [hb]
      · rw [this.2]; simp [hb]; omega

/-- C6: when extraction yields items and exactly the items whose insert
fails (k of them, as determined per item) error out, scrape_target
catches each per-item failure, keeps going, and completes with status
success, items = n - k succeeded and errors = k — a per-item failure
never aborts the target. -/
theorem C6_partial_failure (reg : List (String × Adapter)) (L : TextLibs)
    (ins : InsItem) (target : Target) (force : Bool) (db : DB)
    (a : Adapter) (items : List RawItem) (bad : String → Bool)
    (hskip : force = true ∨ source_exists target.name db = false)
    (hres : get_adapter reg (target.source.getD "example") = .ok a)
    (hurl : a.validate_url target.url = true)
    (hext : a.extract_items target.url target = .ok items)
    (hne : items ≠ [])
    (hins : ∀ (sid : Nat) (num t c s ft : String) (tg : List String)
        (u : String) (db2 : DB),
      (bad num = true →
        ∃ msg, ins sid num t c s ft tg u (target.source.getD "example") db2 = .error msg)
      ∧ (bad num = false →
        ∃ db3, ins sid num t c s ft tg u (target.source.getD "example") db2 = .ok db3)) :
    (scrape_target reg L ins target force db).1
      = .ok (.success target.name
          (items.length - (items.filter (fun it => bad it.number)).length)
          ((items.filter (fun it => bad it.number)).length)
          (target.source.getD "example")) := by
  have hg := skip_guard_false target force db hskip
  have hempty : items.isEmpty = false := by
    cases items with
    | nil => exact absurd rfl hne
    | cons x xs => rfl
  simp only [scrape_target, hg, hres, hurl, hext, Bool.not_true,
    Bool.false_eq_true, if_false, hempty]
  set sr := insert_source target.name target.slug target.category
    target.metadata target.url (target.source.getD "example") db with hsr
  have hc := item_loop_counts ins L sr.1 (target.source.getD "example") bad
    (hins sr.1) items (0, 0, sr.2)
  have hsplit := length_filter_split (fun it => bad it.number) items
  have hcnt : (items.filter (fun it => !(bad it.number))).length
      = items.length - (items.filter (fun it => bad it.number)).length := by
    omega
  rw [hc.1, hc.2, hcnt]
  simp only [Nat.zero_add]

/-- Ten raw items numbered ITEM-1 .. ITEM-10. -/
def ten_items : List RawItem :=
  (List.range 10).map (fun i =>
    { number := "ITEM-" ++ toString (i + 1), title := "T" ++ toString (i + 1),
      text := "body", url := "http://t/i" })

/-- An adapter extracting exactly the ten items. -/
def ten_adapter : Adapter :=
  { SOURCE_NAME := "ten"
    DISPLAY_NAME := "Ten"
    validate_url := fun _ => true
    extract_items := fun _ _ => .ok ten_items }

/-- A registry with the ten-item adapter. -/
def c6_reg : List (String × Adapter) := [("ten", ten_adapter)]

/-- The target routed to the ten-item adapter. -/
def c6_target : Target :=
  { id := "t-10", name := "Target Ten", slug := "target-ten", category := "cat",
    metadata := [], url := "http://t", source := some "ten" }

/-- An item insert whose store call raises exactly on item number ITEM-7. -/
def c6_ins : InsItem := fun sid num t c s ft tg u a db =>
  if num == "ITEM-7" then .error "insert failed"
  else .ok (insert_item sid num t c s ft tg u a db)

theorem C6_partial_failure_witness :
    (scrape_target c6_reg L0 c6_ins c6_target true db0).1
      = .ok (.success "Target Ten" 9 1 "ten") := by
  have h := C6_partial_failure c6_reg L0 c6_ins c6_target true db0
    ten_adapter ten_items (fun num => num == "ITEM-7")
    (Or.inl rfl) rfl rfl rfl (by decide)
    (by
      intro sid num t c s ft tg u db2
      constructor
      · intro hb
        exact ⟨"insert failed", by simp [c6_ins, hb]⟩
      · intro hb
        exact ⟨insert_item sid num t c s ft tg u (c6_target.source.getD "example") db2,
          by simp [c6_ins, hb]⟩)
  rw [h]
  rfl

/- ---------------------------------------------------------------- -/
/- C9: adapter resolution                                            -/
/- ---------------------------------------------------------------- -/

/-- Every element of a list occurs inside its comma-join. -/
theorem comma_join_infix (x : String) :
    ∀ (l : List String), x ∈ l → x.data <:+: (comma_join l).data := by
  intro l
  induction l with
  | nil => intro hx; exact absurd hx (List.not_mem_nil x)
  | cons a tl ih =>
    intro hx
    cases tl with
    | nil =>
      rcases List.mem_cons.mp hx with rfl | hx2
      · exact List.infix_refl x.data
      · exact absurd hx2 (List.not_mem_nil x)
    | cons b tb =>
      have hjoin : comma_join (a :: b :: tb) = a ++ ", " ++ comma_join (b :: tb) := rfl
      rw [hjoin]
      rcases List.mem_cons.mp hx with rfl | hx2
      · refine List.IsPrefix.isInfix ⟨", ".data ++ (comma_join (b :: tb)).data, ?_⟩
        rw [String.data_append, String.data_append, List.append_assoc]
      · refine List.IsInfix.trans (ih hx2) (List.IsSuffix.isInfix ⟨(a ++ ", ").data, ?_⟩)
        simp [String.data_append]

/-- Every known identifier occurs, quoted, inside the get_adapter error
message. -/
theorem key_in_unknown_source_message (s k : String) (keys : List String)
    (hk : k ∈ keys) :
    k.data <:+: (unknown_source_message s keys).data := by
  have h1 : k.data <:+: (squote ++ k ++ squote).data := by
    refine ⟨squote.data, squote.data, ?_⟩
    rw [String.data_append, String.data_append, List.append_assoc]
  have h2 : (squote ++ k ++ squote) ∈ keys.map (fun q => squote ++ q ++ squote) :=
    List.mem_map_of_mem _ hk
  have h3 := comma_join_infix _ _ h2
  have h4 : (unknown_source_message s keys).data
      = ("Unknown source: " ++ s ++ ". Available: " ++ "[").data
        ++ (comma_join (keys.map (fun q => squote ++ q ++ squote))).data
        ++ "]".data := by
    simp only [unknown_source_message, py_list_repr, String.data_append,
      List.append_assoc]
  refine (h1.trans h3).trans ?_
  rw [h4]
  exact ⟨("Unknown source: " ++ s ++ ". Available: " ++ "[").data, "]".data, rfl⟩

/-- C9: for an identifier absent from the registry, get_adapter fails with
an error message listing every known identifier, and scrape_target turns
that failure into a status-error result rather than letting it escape; for
an identifier present, get_adapter returns the instance registered under
it. -/
theorem C9_adapter_resolution (reg : List (String × Adapter)) (s : String) :
    (reg.find? (fun p => p.1 == s) = none →
      get_adapter reg s = .error (unknown_source_message s (reg.map Prod.fst))
      ∧ ∀ k ∈ reg.map Prod.fst,
          k.data <:+: (unknown_source_message s (reg.map Prod.fst)).data)
    ∧ (∀ p, reg.find? (fun q => q.1 == s) = some p → get_adapter reg s = .ok p.2)
    ∧ (∀ (L : TextLibs) (ins : InsItem) (target : Target) (force : Bool) (db : DB),
        target.source.getD "example" = s →
        reg.find? (fun p => p.1 == s) = none →
        (force = true ∨ source_exists target.name db = false) →
        scrape_target reg L ins target force db
          = (.ok (.error target.name
              (unknown_source_message s (reg.map Prod.fst))), db)) := by
  refine ⟨?_, ?_, ?_⟩
  · intro hnone
    constructor
    · rw [get_adapter, hnone]
    · intro k hk
      exact key_in_unknown_source_message s k _ hk
  · intro p hp
    rw [get_adapter, hp]
  · intro L ins target force db hsrc hnone hskip
    have hg := skip_guard_false target force db hskip
    have hres : get_adapter reg s
        = .error (unknown_source_message s (reg.map Prod.fst)) := by
      rw [get_adapter, hnone]
    simp only [scrape_target, hg, Bool.false_eq_true, if_false, hsrc, hres]

/-- A benign stand-in extraction for the shipped example adapter. -/
def ex_extract : String → Target → Except String (List RawItem) :=
  fun _ _ => .ok []

/-- The target asking for an unregistered adapter identifier. -/
def c9_target : Target :=
  { id := "t-u", name := "Target U", slug := "target-u", category := "cat",
    metadata := [], url := "http://example.com/u", source := some "mysite" }

theorem C9_adapter_resolution_witness :
    get_adapter (ADAPTERS ex_extract) "mysite"
      = .error (unknown_source_message "mysite" ["example"])
    ∧ "example".data <:+: (unknown_source_message "mysite" ["example"]).data
    ∧ get_adapter (ADAPTERS ex_extract) "example" = .ok (ExampleAdapter ex_extract)
    ∧ scrape_target (ADAPTERS ex_extract) L0 ins0 c9_target true db0
        = (.ok (.error "Target U" (unknown_source_message "mysite" ["example"])), db0) := by
  have h := C9_adapter_resolution (ADAPTERS ex_extract) "mysite"
  have h2 := C9_adapter_resolution (ADAPTERS ex_extract) "example"
  refine ⟨(h.1 rfl).1, (h.1 rfl).2 "example" (by decide), ?_, ?_⟩
  · exact h2.2.1 ("example", ExampleAdapter ex_extract) rfl
  · exact h.2.2 L0 ins0 c9_target true db0 rfl rfl (Or.inl rfl)
